import Mathlib

/-!
Shallow embedding of the decision engine of the MT5_AI_V2 trading bot.

Embedded code:
* `TradingBot._make_trading_decision` (main.py, lines 91-166): the rule-based
  strategy chain (trend-following, mean-reversion, breakout) over the last row
  of the indicator DataFrame.
* the pydantic model `TradeDecision` with its validators
  (ai_engine/openai_trader.py, lines 9-32),
* `AITrader._validate_decision`, `AITrader._safe_decision` and the retry loop
  of `AITrader.analyze_market` (ai_engine/openai_trader.py).

Numeric values are modelled as rationals (exact arithmetic in place of IEEE
floats); indicator rows are association lists from column names to values, so
that a missing DataFrame column (Python `KeyError`) is representable.  A Python
function that can raise is embedded as `Except String`; the string carries the
kind of exception.
-/

deriving instance DecidableEq for Except

namespace MT5

/-- Decision record: the shape of the decision dicts of `main.py` and of the
pydantic model `TradeDecision` of `ai_engine/openai_trader.py`. -/
structure TradeDecision where
  action : String
  stop_loss : ℚ
  take_profit : ℚ
  confidence : ℚ
  reasoning : String
deriving DecidableEq

/-- Last row of the indicator DataFrame, with the eight columns read by
`_make_trading_decision` (main.py lines 100-107), in source reading order. -/
structure Row where
  ema20 : ℚ
  ema50 : ℚ
  rsi : ℚ
  atr : ℚ
  adx : ℚ
  bollinger_upper : ℚ
  bollinger_lower : ℚ
  close : ℚ
deriving DecidableEq

/-- main.py line 110: `risk_multiplier = 1.5`. -/
def risk_multiplier : ℚ := 1.5

/-- Strategy chain of `_make_trading_decision` (main.py lines 109-166), applied
to the last row.  The breakout guard of line 151 is `atr > atr.mean() * 1.5`
where `atr` is the scalar `last_row['atr']`; `numpy.float64.mean()` of a scalar
is the scalar itself, so the guard is embedded as `r.atr > r.atr * 1.5`. -/
def decide_from_row (r : Row) : TradeDecision :=
  let stop_loss := r.close - risk_multiplier * r.atr
  let take_profit := r.close + risk_multiplier * r.atr
  if r.ema20 > r.ema50 ∧ r.adx > 25 ∧ r.rsi > 50 then
    { action := "buy", stop_loss := stop_loss, take_profit := take_profit,
      confidence := 0.85,
      reasoning := "Strong bullish trend with EMA crossover & ADX > 25" }
  else if r.ema20 < r.ema50 ∧ r.adx > 25 ∧ r.rsi < 50 then
    { action := "sell", stop_loss := r.close + risk_multiplier * r.atr,
      take_profit := r.close - risk_multiplier * r.atr,
      confidence := 0.85,
      reasoning := "Strong bearish trend with EMA crossover & ADX > 25" }
  else if r.close ≤ r.bollinger_lower ∧ r.rsi < 30 then
    { action := "buy", stop_loss := stop_loss, take_profit := take_profit,
      confidence := 0.75,
      reasoning := "Price at lower Bollinger Band & RSI < 30 (Oversold)" }
  else if r.close ≥ r.bollinger_upper ∧ r.rsi > 70 then
    { action := "sell", stop_loss := r.close + risk_multiplier * r.atr,
      take_profit := r.close - risk_multiplier * r.atr,
      confidence := 0.75,
      reasoning := "Price at upper Bollinger Band & RSI > 70 (Overbought)" }
  else if r.atr > r.atr * 1.5 then
    { action := if r.rsi > 50 then "buy" else "sell",
      stop_loss := stop_loss, take_profit := take_profit,
      confidence := 0.8, reasoning := "High ATR breakout detected" }
  else
    { action := "hold", stop_loss := 0, take_profit := 0,
      confidence := 0.5, reasoning := "No clear signal" }

/-- Column access `last_row[k]` on an association-list row: first match wins,
a missing column raises `KeyError` (embedded as `Except.error`). -/
def lookupCol (row : List (String × ℚ)) (k : String) : Option ℚ :=
  match row with
  | [] => none
  | (k₀, v) :: rest => if k₀ = k then some v else lookupCol rest k

/-- `last_row[k]` as a fallible read. -/
def getCol (row : List (String × ℚ)) (k : String) : Except String ℚ :=
  match lookupCol row k with
  | some v => Except.ok v
  | none => Except.error ("KeyError: " ++ k)

/-- main.py lines 100-107: read the eight indicator columns of the last row;
any missing column raises. -/
def read_last_row (row : List (String × ℚ)) : Except String Row := do
  let e20 ← getCol row "ema20"
  let e50 ← getCol row "ema50"
  let rsi ← getCol row "rsi"
  let atr ← getCol row "atr"
  let adx ← getCol row "adx"
  let bu ← getCol row "bollinger_upper"
  let bl ← getCol row "bollinger_lower"
  let cl ← getCol row "close"
  Except.ok ⟨e20, e50, rsi, atr, adx, bu, bl, cl⟩

/-- main.py lines 94-95: the insufficient-data decision. -/
def insufficient_data_decision : TradeDecision :=
  { action := "hold", stop_loss := 0, take_profit := 0,
    confidence := 0, reasoning := "Insufficient data" }

/-- main.py lines 160-166: the no-signal decision. -/
def no_signal_decision : TradeDecision :=
  { action := "hold", stop_loss := 0, take_profit := 0,
    confidence := 0.5, reasoning := "No clear signal" }

/-- `TradingBot._make_trading_decision` (main.py lines 91-166): `bars` is
`len(data)`, `row` the last row.  Uncaught exceptions of the body (for example
`KeyError` on a missing column) surface as `Except.error`. -/
def make_trading_decision (bars : ℕ) (row : List (String × ℚ)) :
    Except String TradeDecision :=
  if bars < 50 then Except.ok insufficient_data_decision
  else (read_last_row row).map decide_from_row

/-! ### The pydantic model validators (ai_engine/openai_trader.py lines 9-32) -/

/-- Python `round` to an integer: round-half-to-even (banker's rounding),
idealised to exact rationals. -/
def pyRoundInt (q : ℚ) : ℤ :=
  if q - ⌊q⌋ < 1/2 then ⌊q⌋
  else if 1/2 < q - ⌊q⌋ then ⌊q⌋ + 1
  else if ⌊q⌋ % 2 = 0 then ⌊q⌋ else ⌊q⌋ + 1

/-- Python `round(v, n)`. -/
def pyRound (n : ℕ) (v : ℚ) : ℚ := (pyRoundInt (v * 10 ^ n) : ℚ) / 10 ^ n

/-- Validator `valid_action` (lines 16-20). -/
def valid_action (v : String) : Except String String :=
  if v = "buy" ∨ v = "sell" ∨ v = "hold" then Except.ok v
  else Except.error "Invalid trading action"

/-- Validator `valid_prices` (lines 22-26): positivity is required only for
active (non-hold) trades, and the value is rounded to 5 decimal places. -/
def valid_prices (action : String) (v : ℚ) : Except String ℚ :=
  if action ≠ "hold" ∧ v ≤ 0 then
    Except.error "Positive price levels required for active trades"
  else Except.ok (pyRound 5 v)

/-- Validator `valid_confidence` (lines 28-32). -/
def valid_confidence (v : ℚ) : Except String ℚ :=
  if 0 ≤ v ∧ v ≤ 1 then Except.ok (pyRound 2 v)
  else Except.error "Confidence must be between 0 and 1"

/-- Construction `TradeDecision(**response_data)`: pydantic runs the field
validators in declaration order; any failure raises `ValidationError`. -/
def parse_trade_decision (action : String) (sl tp conf : ℚ) (reasoning : String) :
    Except String TradeDecision := do
  let a ← valid_action action
  let s ← valid_prices a sl
  let t ← valid_prices a tp
  let c ← valid_confidence conf
  Except.ok ⟨a, s, t, c, reasoning⟩

/-! ### AITrader (ai_engine/openai_trader.py lines 34-148) -/

/-- `self.min_rr_ratio = 1.5` (line 40). -/
def minRR : ℚ := 1.5

/-- `self.max_retries = 3` (line 38). -/
def maxRetries : ℕ := 3

/-- `AITrader._validate_decision` (lines 115-134).  In Python the final ratio
`reward / risk` raises `ZeroDivisionError` when `risk == 0`; that raise is the
explicit third error branch here. -/
def validate_decision (price : ℚ) (d : TradeDecision) : Except String Unit :=
  if d.action = "hold" then Except.ok ()
  else if d.action = "buy" ∧ ¬ (d.stop_loss < price ∧ price < d.take_profit) then
    Except.error "Invalid levels"
  else if d.action = "sell" ∧ ¬ (d.take_profit < price ∧ price < d.stop_loss) then
    Except.error "Invalid levels"
  else
    let risk := |price - d.stop_loss|
    let reward := |d.take_profit - price|
    if risk = 0 then Except.error "ZeroDivisionError: float division by zero"
    else if reward / risk < minRR then Except.error "RR ratio below minimum"
    else Except.ok ()

/-- `AITrader._safe_decision` (lines 140-148). -/
def safe_decision : TradeDecision :=
  { action := "hold", stop_loss := 0, take_profit := 0,
    confidence := 0, reasoning := "System error - conservative hold" }

/-- One parse-and-validate pass over an externally produced raw decision:
`_parse_response`'s pydantic construction followed by `_validate_decision`
(the validation `analyze_market` subjects each attempt to). -/
def parse_and_validate (price : ℚ) (action : String) (sl tp conf : ℚ)
    (reasoning : String) : Except String TradeDecision := do
  let d ← parse_trade_decision action sl tp conf reasoning
  let _ ← validate_decision price d
  Except.ok d

/-- Retry loop of `AITrader.analyze_market` (lines 46-59).  `attempts k` is the
outcome of the k-th call to `_get_ai_decision` (an `Except.error` models a
raised API/parse exception); a decision that arrives is validated against the
current price, and any failure moves on to the next attempt.  The fixed
`time.sleep` between attempts has no observable effect on the result and is
not modelled. -/
def analyze_loop (price : ℚ) (attempts : ℕ → Except String TradeDecision) :
    ℕ → ℕ → TradeDecision
  | _, 0 => safe_decision
  | k, fuel + 1 =>
    match attempts k with
    | Except.error _ => analyze_loop price attempts (k + 1) fuel
    | Except.ok d =>
      match validate_decision price d with
      | Except.error _ => analyze_loop price attempts (k + 1) fuel
      | Except.ok _ => d

/-- `AITrader.analyze_market` (lines 42-59): up to `maxRetries` attempts, then
the safe fallback. -/
def analyze_market (price : ℚ) (attempts : ℕ → Except String TradeDecision) :
    TradeDecision :=
  analyze_loop price attempts 0 maxRetries

/-- Attempt `k` fails: the external call raises, or the decision it returns is
rejected by `_validate_decision`. -/
def attempt_fails (price : ℚ) (attempts : ℕ → Except String TradeDecision)
    (k : ℕ) : Prop :=
  match attempts k with
  | Except.error _ => True
  | Except.ok d => validate_decision price d ≠ Except.ok ()

/-! ### Predicates used to state the claims -/

/-- Columns read by `_make_trading_decision`. -/
def requiredCols : List String :=
  ["ema20", "ema50", "rsi", "atr", "adx",
   "bollinger_upper", "bollinger_lower", "close"]

/-- Well-formed decision: enumerated action and confidence in [0, 1]. -/
def well_formed (d : TradeDecision) : Prop :=
  (d.action = "buy" ∨ d.action = "sell" ∨ d.action = "hold") ∧
    0 ≤ d.confidence ∧ d.confidence ≤ 1

/-- Trend-following buy guard (main.py line 115). -/
def trend_buy (r : Row) : Prop := r.ema20 > r.ema50 ∧ r.adx > 25 ∧ r.rsi > 50

/-- Trend-following sell guard (main.py line 123). -/
def trend_sell (r : Row) : Prop := r.ema20 < r.ema50 ∧ r.adx > 25 ∧ r.rsi < 50

/-- Mean-reversion buy guard (main.py line 133). -/
def mr_buy (r : Row) : Prop := r.close ≤ r.bollinger_lower ∧ r.rsi < 30

/-- Mean-reversion sell guard (main.py line 141). -/
def mr_sell (r : Row) : Prop := r.close ≥ r.bollinger_upper ∧ r.rsi > 70

/-- Breakout guard as the code evaluates it (main.py line 151). -/
def breakout_guard (r : Row) : Prop := r.atr > r.atr * 1.5

/-- The price-level ordering checks of `_validate_decision` pass (no raise on
lines 124-128). -/
def passes_ordering (price : ℚ) (d : TradeDecision) : Prop :=
  (d.action = "buy" → d.stop_loss < price ∧ price < d.take_profit) ∧
    (d.action = "sell" → d.take_profit < price ∧ price < d.stop_loss)

/-- External reasoning call that raises on every attempt. -/
def always_error_attempts : ℕ → Except String TradeDecision :=
  fun _ => Except.error "API error"

/-- External reasoning call that times out on every attempt. -/
def timeout_attempts : ℕ → Except String TradeDecision :=
  fun _ => Except.error "timeout"

/-- Spec §8 example snapshot as the last row of the indicator frame. -/
def example_snapshot : List (String × ℚ) :=
  [("ema20", 1.1050), ("ema50", 1.1020), ("rsi", 55), ("atr", 0.0012),
   ("adx", 30), ("bollinger_upper", 1.2), ("bollinger_lower", 1.0),
   ("close", 1.1050)]

/-- Decision used to witness C10. -/
def c10_decision : TradeDecision := ⟨"buy", 1, 1.26, 0.5, "r"⟩

end MT5

namespace MT5

lemma decide_of_trend_buy (r : Row) (h : trend_buy r) :
    decide_from_row r =
      { action := "buy", stop_loss := r.close - risk_multiplier * r.atr,
        take_profit := r.close + risk_multiplier * r.atr, confidence := 0.85,
        reasoning := "Strong bullish trend with EMA crossover & ADX > 25" } := by
  unfold decide_from_row
  split_ifs with h1 h2 h3 h4 h5 h6
  · rfl
  all_goals exact absurd h h1

lemma decide_of_trend_sell (r : Row) (hb : ¬ trend_buy r) (h : trend_sell r) :
    decide_from_row r =
      { action := "sell", stop_loss := r.close + risk_multiplier * r.atr,
        take_profit := r.close - risk_multiplier * r.atr, confidence := 0.85,
        reasoning := "Strong bearish trend with EMA crossover & ADX > 25" } := by
  unfold decide_from_row
  split_ifs with h1 h2 h3 h4 h5 h6
  · exact absurd h1 hb
  · rfl
  all_goals exact absurd h h2

lemma decide_of_mr_buy (r : Row) (hb : ¬ trend_buy r) (hs : ¬ trend_sell r)
    (h : mr_buy r) :
    decide_from_row r =
      { action := "buy", stop_loss := r.close - risk_multiplier * r.atr,
        take_profit := r.close + risk_multiplier * r.atr, confidence := 0.75,
        reasoning := "Price at lower Bollinger Band & RSI < 30 (Oversold)" } := by
  unfold decide_from_row
  split_ifs with h1 h2 h3 h4 h5 h6
  · exact absurd h1 hb
  · exact absurd h2 hs
  · rfl
  all_goals exact absurd h h3

lemma decide_of_mr_sell (r : Row) (hb : ¬ trend_buy r) (hs : ¬ trend_sell r)
    (hm : ¬ mr_buy r) (h : mr_sell r) :
    decide_from_row r =
      { action := "sell", stop_loss := r.close + risk_multiplier * r.atr,
        take_profit := r.close - risk_multiplier * r.atr, confidence := 0.75,
        reasoning := "Price at upper Bollinger Band & RSI > 70 (Overbought)" } := by
  unfold decide_from_row
  split_ifs with h1 h2 h3 h4 h5 h6
  · exact absurd h1 hb
  · exact absurd h2 hs
  · exact absurd h3 hm
  · rfl
  all_goals exact absurd h h4

lemma decide_of_no_fire (r : Row) (hb : ¬ trend_buy r) (hs : ¬ trend_sell r)
    (hm : ¬ mr_buy r) (hn : ¬ mr_sell r) (ho : ¬ breakout_guard r) :
    decide_from_row r = no_signal_decision := by
  unfold decide_from_row
  split_ifs with h1 h2 h3 h4 h5 h6
  · exact absurd h1 hb
  · exact absurd h2 hs
  · exact absurd h3 hm
  · exact absurd h4 hn
  · exact absurd h5 ho
  · exact absurd h5 ho
  · rfl

end MT5

namespace MT5

lemma breakout_guard_false {r : Row} (h : 0 ≤ r.atr) : ¬ breakout_guard r := by
  unfold breakout_guard
  intro hc
  linarith

lemma read_last_row_isOk (row : List (String × ℚ))
    (h : ∀ k ∈ requiredCols, (lookupCol row k).isSome) :
    ∃ r : Row, read_last_row row = Except.ok r := by
  obtain ⟨v1, h1⟩ := Option.isSome_iff_exists.mp (h "ema20" (by simp [requiredCols]))
  obtain ⟨v2, h2⟩ := Option.isSome_iff_exists.mp (h "ema50" (by simp [requiredCols]))
  obtain ⟨v3, h3⟩ := Option.isSome_iff_exists.mp (h "rsi" (by simp [requiredCols]))
  obtain ⟨v4, h4⟩ := Option.isSome_iff_exists.mp (h "atr" (by simp [requiredCols]))
  obtain ⟨v5, h5⟩ := Option.isSome_iff_exists.mp (h "adx" (by simp [requiredCols]))
  obtain ⟨v6, h6⟩ :=
    Option.isSome_iff_exists.mp (h "bollinger_upper" (by simp [requiredCols]))
  obtain ⟨v7, h7⟩ :=
    Option.isSome_iff_exists.mp (h "bollinger_lower" (by simp [requiredCols]))
  obtain ⟨v8, h8⟩ := Option.isSome_iff_exists.mp (h "close" (by simp [requiredCols]))
  refine ⟨⟨v1, v2, v3, v4, v5, v6, v7, v8⟩, ?_⟩
  simp only [read_last_row, getCol, h1, h2, h3, h4, h5, h6, h7, h8]
  rfl

lemma make_trading_decision_ok {bars : ℕ} {row : List (String × ℚ)}
    {d : TradeDecision} (h : make_trading_decision bars row = Except.ok d) :
    d = insufficient_data_decision ∨ ∃ r : Row, d = decide_from_row r := by
  unfold make_trading_decision at h
  by_cases hb : bars < 50
  · rw [if_pos hb] at h
    exact Or.inl (Except.ok.inj h).symm
  · rw [if_neg hb] at h
    cases hr : read_last_row row with
    | error e => rw [hr] at h; simp [Except.map] at h
    | ok r =>
      rw [hr] at h
      simp [Except.map] at h
      exact Or.inr ⟨r, h.symm⟩

lemma decide_from_row_action_cases (r : Row) :
    (decide_from_row r).action = "buy" ∨ (decide_from_row r).action = "sell" ∨
      (decide_from_row r).action = "hold" := by
  unfold decide_from_row
  split_ifs <;> simp

lemma decide_from_row_hold (r : Row) (h : (decide_from_row r).action = "hold") :
    decide_from_row r = no_signal_decision := by
  unfold decide_from_row at h ⊢
  split_ifs at h ⊢ <;> first | rfl | simp_all

lemma decide_from_row_conf_mem (r : Row) :
    (decide_from_row r).confidence = 0.85 ∨ (decide_from_row r).confidence = 0.75 ∨
      (decide_from_row r).confidence = 0.8 ∨ (decide_from_row r).confidence = 0.5 := by
  unfold decide_from_row
  split_ifs <;> simp

end MT5

namespace MT5

lemma ebind_ok {ε α β : Type} (a : α) (f : α → Except ε β) :
    (Except.ok a : Except ε α) >>= f = f a := rfl

lemma ebind_error {ε α β : Type} (e : ε) (f : α → Except ε β) :
    (Except.error e : Except ε α) >>= f = Except.error e := rfl

lemma valid_action_ok {a a' : String} (h : valid_action a = Except.ok a') :
    a' = a ∧ (a = "buy" ∨ a = "sell" ∨ a = "hold") := by
  unfold valid_action at h
  split_ifs at h with hc
  exact ⟨(Except.ok.inj h).symm, hc⟩

lemma valid_prices_ok {a : String} {v v' : ℚ} (h : valid_prices a v = Except.ok v') :
    v' = pyRound 5 v ∧ (a ≠ "hold" → 0 < v) := by
  unfold valid_prices at h
  split_ifs at h with hc
  refine ⟨(Except.ok.inj h).symm, fun hne => ?_⟩
  rcases not_and_or.mp hc with hx | hx
  · exact absurd (not_not.mp hx) hne
  · exact not_le.mp hx

lemma valid_confidence_ok {v v' : ℚ} (h : valid_confidence v = Except.ok v') :
    v' = pyRound 2 v ∧ 0 ≤ v ∧ v ≤ 1 := by
  unfold valid_confidence at h
  split_ifs at h with hc
  exact ⟨(Except.ok.inj h).symm, hc⟩

lemma parse_ok_fields {a : String} {sl tp conf : ℚ} {rsn : String}
    {d : TradeDecision} (h : parse_trade_decision a sl tp conf rsn = Except.ok d) :
    d = ⟨a, pyRound 5 sl, pyRound 5 tp, pyRound 2 conf, rsn⟩ ∧
      (a = "buy" ∨ a = "sell" ∨ a = "hold") ∧
      (a ≠ "hold" → 0 < sl ∧ 0 < tp) ∧ 0 ≤ conf ∧ conf ≤ 1 := by
  unfold parse_trade_decision at h
  cases hA : valid_action a with
  | error e => rw [hA, ebind_error] at h; simp at h
  | ok a1 =>
    rw [hA] at h
    simp only [ebind_ok] at h
    obtain ⟨rfl, haset⟩ := valid_action_ok hA
    cases hS : valid_prices a1 sl with
    | error e => rw [hS, ebind_error] at h; simp at h
    | ok s =>
      rw [hS] at h
      simp only [ebind_ok] at h
      obtain ⟨hs, hslpos⟩ := valid_prices_ok hS
      cases hT : valid_prices a1 tp with
      | error e => rw [hT, ebind_error] at h; simp at h
      | ok t =>
        rw [hT] at h
        simp only [ebind_ok] at h
        obtain ⟨ht, htppos⟩ := valid_prices_ok hT
        cases hC : valid_confidence conf with
        | error e => rw [hC, ebind_error] at h; simp at h
        | ok c =>
          rw [hC] at h
          simp only [ebind_ok] at h
          obtain ⟨hc, hc0, hc1⟩ := valid_confidence_ok hC
          refine ⟨?_, haset, fun hne => ⟨hslpos hne, htppos hne⟩, hc0, hc1⟩
          rw [← (Except.ok.inj h), hs, ht, hc]

lemma parse_ok_of {a : String} {sl tp conf : ℚ} (rsn : String)
    (haset : a = "buy" ∨ a = "sell" ∨ a = "hold")
    (hpos : a ≠ "hold" → 0 < sl ∧ 0 < tp) (hc0 : 0 ≤ conf) (hc1 : conf ≤ 1) :
    parse_trade_decision a sl tp conf rsn =
      Except.ok ⟨a, pyRound 5 sl, pyRound 5 tp, pyRound 2 conf, rsn⟩ := by
  have hA : valid_action a = Except.ok a := by
    unfold valid_action; rw [if_pos haset]
  have hS : valid_prices a sl = Except.ok (pyRound 5 sl) := by
    unfold valid_prices
    rw [if_neg]
    rintro ⟨hne, hle⟩
    exact absurd hle (not_le.mpr (hpos hne).1)
  have hT : valid_prices a tp = Except.ok (pyRound 5 tp) := by
    unfold valid_prices
    rw [if_neg]
    rintro ⟨hne, hle⟩
    exact absurd hle (not_le.mpr (hpos hne).2)
  have hC : valid_confidence conf = Except.ok (pyRound 2 conf) := by
    unfold valid_confidence; rw [if_pos ⟨hc0, hc1⟩]
  unfold parse_trade_decision
  rw [hA]; simp only [ebind_ok]
  rw [hS]; simp only [ebind_ok]
  rw [hT]; simp only [ebind_ok]
  rw [hC]; simp only [ebind_ok]

lemma validate_of_hold {price : ℚ} {d : TradeDecision} (h : d.action = "hold") :
    validate_decision price d = Except.ok () := by
  unfold validate_decision
  rw [if_pos h]

lemma validate_buy_iff {price : ℚ} {d : TradeDecision} (h : d.action = "buy") :
    (validate_decision price d).isOk ↔
      (d.stop_loss < price ∧ price < d.take_profit) ∧
        minRR ≤ |d.take_profit - price| / |price - d.stop_loss| := by
  unfold validate_decision
  rw [h]
  by_cases hord : d.stop_loss < price ∧ price < d.take_profit
  · have hrisk : |price - d.stop_loss| ≠ 0 :=
      ne_of_gt (abs_pos.mpr (ne_of_gt (sub_pos.mpr hord.1)))
    by_cases hrr : |d.take_profit - price| / |price - d.stop_loss| < minRR
    · simp [hord, hrisk, hrr, Except.isOk, Except.toBool, not_le.mpr hrr]
    · simp [hord, hrisk, hrr, Except.isOk, Except.toBool, not_lt.mp hrr]
  · simp [hord, Except.isOk, Except.toBool]

lemma validate_sell_iff {price : ℚ} {d : TradeDecision} (h : d.action = "sell") :
    (validate_decision price d).isOk ↔
      (d.take_profit < price ∧ price < d.stop_loss) ∧
        minRR ≤ |d.take_profit - price| / |price - d.stop_loss| := by
  unfold validate_decision
  rw [h]
  by_cases hord : d.take_profit < price ∧ price < d.stop_loss
  · have hrisk : |price - d.stop_loss| ≠ 0 :=
      ne_of_gt (abs_pos.mpr (ne_of_lt (sub_neg.mpr hord.2)))
    by_cases hrr : |d.take_profit - price| / |price - d.stop_loss| < minRR
    · simp [hord, hrisk, hrr, Except.isOk, Except.toBool, not_le.mpr hrr]
    · simp [hord, hrisk, hrr, Except.isOk, Except.toBool, not_lt.mp hrr]
  · simp [hord, Except.isOk, Except.toBool]

end MT5

namespace MT5

lemma analyze_loop_succ (price : ℚ) (attempts : ℕ → Except String TradeDecision)
    (k fuel : ℕ) (hf : attempt_fails price attempts k) :
    analyze_loop price attempts k (fuel + 1) =
      analyze_loop price attempts (k + 1) fuel := by
  unfold attempt_fails at hf
  cases ha : attempts k with
  | error e =>
    simp only [analyze_loop, ha]
  | ok d =>
    rw [ha] at hf
    cases hv : validate_decision price d with
    | error e => simp only [analyze_loop, ha, hv]
    | ok u => cases u; exact absurd hv hf

lemma analyze_loop_zero (price : ℚ) (attempts : ℕ → Except String TradeDecision)
    (k : ℕ) : analyze_loop price attempts k 0 = safe_decision := rfl

lemma validate_ne_zerodiv {price : ℚ} {d : TradeDecision}
    (h : d.action = "buy" ∨ d.action = "sell" ∨ d.action = "hold") :
    validate_decision price d ≠
      Except.error "ZeroDivisionError: float division by zero" := by
  unfold validate_decision
  split_ifs with h1 h2 h3
  · simp
  · intro hv
    exact absurd (Except.error.inj hv) (by decide)
  · intro hv
    exact absurd (Except.error.inj hv) (by decide)
  · dsimp only
    split_ifs with h4 h5
    · -- the division-by-zero branch: unreachable for an enumerated action
      exfalso
      rcases h with hb | hs | hh
      · have hord := not_not.mp (not_and.mp h2 hb)
        have hpos : (0:ℚ) < |price - d.stop_loss| :=
          abs_pos.mpr (ne_of_gt (sub_pos.mpr hord.1))
        exact absurd h4 (ne_of_gt hpos)
      · have hord := not_not.mp (not_and.mp h3 hs)
        have hpos : (0:ℚ) < |price - d.stop_loss| :=
          abs_pos.mpr (ne_of_lt (sub_neg.mpr hord.2))
        exact absurd h4 (ne_of_gt hpos)
      · exact h1 hh
    · intro hv
      exact absurd (Except.error.inj hv) (by decide)
    · simp

end MT5

namespace MT5

lemma well_formed_decide_from_row (r : Row) : well_formed (decide_from_row r) := by
  refine ⟨decide_from_row_action_cases r, ?_, ?_⟩ <;>
    rcases decide_from_row_conf_mem r with h | h | h | h <;> rw [h] <;> norm_num

/-- C1: for every directional decision produced by any of the three rule
strategies on a snapshot with ATR > 0, the price-level ordering invariant
holds: buy means stop_loss < price < take_profit, sell means
take_profit < price < stop_loss. -/
theorem C1_directional_level_ordering (r : Row) (hatr : 0 < r.atr) :
    ((decide_from_row r).action = "buy" →
      (decide_from_row r).stop_loss < r.close ∧
        r.close < (decide_from_row r).take_profit) ∧
    ((decide_from_row r).action = "sell" →
      (decide_from_row r).take_profit < r.close ∧
        r.close < (decide_from_row r).stop_loss) := by
  have hm : 0 < risk_multiplier * r.atr :=
    mul_pos (by norm_num [risk_multiplier]) hatr
  unfold decide_from_row
  split_ifs with h1 h2 h3 h4 h5 h6
  · exact ⟨fun _ => ⟨by dsimp only; linarith, by dsimp only; linarith⟩,
      fun hs => by simp at hs⟩
  · exact ⟨fun hb => by simp at hb,
      fun _ => ⟨by dsimp only; linarith, by dsimp only; linarith⟩⟩
  · exact ⟨fun _ => ⟨by dsimp only; linarith, by dsimp only; linarith⟩,
      fun hs => by simp at hs⟩
  · exact ⟨fun hb => by simp at hb,
      fun _ => ⟨by dsimp only; linarith, by dsimp only; linarith⟩⟩
  · exact absurd h5 (by exfalso; linarith)
  · exact absurd h5 (by exfalso; linarith)
  · exact ⟨fun hb => by simp at hb, fun hs => by simp at hs⟩

/-- Witness for C1 at a trend-following buy snapshot. -/
theorem C1_witness :
    (decide_from_row ⟨2, 1, 60, 1, 30, 10, 0, 5⟩).stop_loss < 5 ∧
      (5:ℚ) < (decide_from_row ⟨2, 1, 60, 1, 30, 10, 0, 5⟩).take_profit :=
  (C1_directional_level_ordering ⟨2, 1, 60, 1, 30, 10, 0, 5⟩ (by norm_num)).1
    (by decide)

/-- C2 (amended): on a snapshot holding every required indicator column the
rule-path decision function returns a well-formed TradeDecision; a snapshot
with enough bars but a missing column makes it raise to its caller (see the
counterexample), and only the external-reasoning path converts errors into the
safe hold. -/
theorem C2_total_on_complete_rows (bars : ℕ) (row : List (String × ℚ))
    (h : ∀ k ∈ requiredCols, (lookupCol row k).isSome) :
    ∃ d : TradeDecision,
      make_trading_decision bars row = Except.ok d ∧ well_formed d := by
  by_cases hb : bars < 50
  · refine ⟨insufficient_data_decision, ?_, ?_⟩
    · unfold make_trading_decision
      rw [if_pos hb]
    · exact ⟨Or.inr (Or.inr rfl), by norm_num [insufficient_data_decision],
        by norm_num [insufficient_data_decision]⟩
  · obtain ⟨r, hr⟩ := read_last_row_isOk row h
    refine ⟨decide_from_row r, ?_, well_formed_decide_from_row r⟩
    unfold make_trading_decision
    rw [if_neg hb, hr]
    rfl

/-- Witness for C2 on a complete snapshot row. -/
theorem C2_witness :
    ∃ d : TradeDecision,
      make_trading_decision 100
          [("ema20", 2), ("ema50", 1), ("rsi", 60), ("atr", 1), ("adx", 30),
           ("bollinger_upper", 10), ("bollinger_lower", 0), ("close", 5)] =
        Except.ok d ∧ well_formed d :=
  C2_total_on_complete_rows 100
    [("ema20", 2), ("ema50", 1), ("rsi", 60), ("atr", 1), ("adx", 30),
     ("bollinger_upper", 10), ("bollinger_lower", 0), ("close", 5)]
    (by decide)

/-- Counterexample to C2 as stated: with 100 bars and a row missing the `adx`
column, the rule path raises a KeyError instead of returning a hold
decision. -/
theorem C2_counterexample :
    make_trading_decision 100
        [("ema20", 1), ("ema50", 1), ("rsi", 50), ("atr", 1),
         ("bollinger_upper", 2), ("bollinger_lower", 0), ("close", 1)] =
      Except.error "KeyError: adx" := by decide

end MT5

namespace MT5

/-- C3 (amended): if every one of the three attempts of the external reasoning
call fails (raises or fails validation), `analyze_market` returns exactly the
canonical safe fallback: hold, zero levels, zero confidence, reasoning
"System error - conservative hold". -/
theorem C3_all_retries_fail_fallback (price : ℚ)
    (attempts : ℕ → Except String TradeDecision)
    (h : ∀ k, k < maxRetries → attempt_fails price attempts k) :
    analyze_market price attempts = safe_decision := by
  have e0 := analyze_loop_succ price attempts 0 2 (h 0 (by norm_num [maxRetries]))
  have e1 := analyze_loop_succ price attempts 1 1 (h 1 (by norm_num [maxRetries]))
  have e2 := analyze_loop_succ price attempts 2 0 (h 2 (by norm_num [maxRetries]))
  unfold analyze_market maxRetries
  rw [show (3:ℕ) = 2 + 1 from rfl, e0, show (2:ℕ) = 1 + 1 from rfl, e1,
    show (1:ℕ) = 0 + 1 from rfl, e2]
  exact analyze_loop_zero price attempts (2 + 1)

/-- Witness for C3: all three attempts raise, so the fallback is returned. -/
theorem C3_witness : analyze_market 1 always_error_attempts = safe_decision :=
  C3_all_retries_fail_fallback 1 always_error_attempts
    (by intro k hk; simp [attempt_fails, always_error_attempts])

/-- Counterexample to C3 as stated: the fallback's reasoning text is
"System error - conservative hold", not "system error - conservative hold". -/
theorem C3_counterexample :
    analyze_market 2 timeout_attempts = safe_decision ∧
      safe_decision.reasoning ≠ "system error - conservative hold" := by
  constructor
  · rfl
  · decide

/-- C4 (amended): every hold decision of the rule path has zero levels, with
confidence 0 on the insufficient-data path and 0.5 on the no-signal path; the
fallback hold has zero levels and confidence 0; the response validator accepts
a hold decision with any levels as long as confidence is in [0, 1]. -/
theorem C4_hold_shape :
    (∀ (bars : ℕ) (row : List (String × ℚ)) (d : TradeDecision),
        make_trading_decision bars row = Except.ok d → d.action = "hold" →
          d.stop_loss = 0 ∧ d.take_profit = 0 ∧
            (d.confidence = 0 ∨ d.confidence = 0.5)) ∧
      (safe_decision.action = "hold" ∧ safe_decision.stop_loss = 0 ∧
        safe_decision.take_profit = 0 ∧ safe_decision.confidence = 0) ∧
      (∀ (sl tp conf : ℚ) (rsn : String), 0 ≤ conf → conf ≤ 1 →
        parse_trade_decision "hold" sl tp conf rsn =
          Except.ok ⟨"hold", pyRound 5 sl, pyRound 5 tp, pyRound 2 conf, rsn⟩) := by
  refine ⟨?_, ⟨rfl, rfl, rfl, rfl⟩, ?_⟩
  · intro bars row d hok hact
    rcases make_trading_decision_ok hok with hd | ⟨r, hd⟩
    · rw [hd]
      exact ⟨rfl, rfl, Or.inl rfl⟩
    · rw [hd] at hact ⊢
      rw [decide_from_row_hold r hact]
      exact ⟨rfl, rfl, Or.inr rfl⟩
  · intro sl tp conf rsn h0 h1
    exact parse_ok_of rsn (Or.inr (Or.inr rfl)) (fun hne => absurd rfl hne) h0 h1

/-- Witness for C4 on the insufficient-data path. -/
theorem C4_witness :
    insufficient_data_decision.stop_loss = 0 ∧
      insufficient_data_decision.take_profit = 0 ∧
      (insufficient_data_decision.confidence = 0 ∨
        insufficient_data_decision.confidence = 0.5) :=
  C4_hold_shape.1 10 [] insufficient_data_decision (by decide) (by decide)

/-- Counterexample to C4 as stated: the no-signal hold carries confidence 0.5,
and the response validator accepts a hold whose take_profit is 3 and whose
confidence is 0.9. -/
theorem C4_counterexample :
    (decide_from_row ⟨1, 2, 40, 1, 10, 10, 0, 5⟩).action = "hold" ∧
      (decide_from_row ⟨1, 2, 40, 1, 10, 10, 0, 5⟩).confidence = 0.5 ∧
      (0.5:ℚ) ≠ 0 ∧
      parse_trade_decision "hold" 0 3 0.9 "ok" =
        Except.ok ⟨"hold", 0, 3, 0.9, "ok"⟩ := by
  have hrow : decide_from_row ⟨1, 2, 40, 1, 10, 10, 0, 5⟩ = no_signal_decision :=
    decide_of_no_fire _ (by norm_num [trend_buy]) (by norm_num [trend_sell])
      (by norm_num [mr_buy]) (by norm_num [mr_sell])
      (by norm_num [breakout_guard])
  have hparse : parse_trade_decision "hold" 0 3 0.9 "ok" =
      Except.ok ⟨"hold", pyRound 5 0, pyRound 5 3, pyRound 2 0.9, "ok"⟩ :=
    parse_ok_of "ok" (Or.inr (Or.inr rfl)) (fun hne => absurd rfl hne)
      (by norm_num) (by norm_num)
  refine ⟨by rw [hrow]; rfl, by rw [hrow]; rfl, by norm_num, ?_⟩
  rw [hparse]
  norm_num [pyRound, pyRoundInt]

/-- C6 (amended): with fewer than 50 bars the decision function returns hold
with zero levels and zero confidence and reasoning "Insufficient data",
whatever the row contains. -/
theorem C6_insufficient_bars (bars : ℕ) (row : List (String × ℚ))
    (h : bars < 50) :
    make_trading_decision bars row =
      Except.ok { action := "hold", stop_loss := 0, take_profit := 0,
                  confidence := 0, reasoning := "Insufficient data" } := by
  unfold make_trading_decision
  rw [if_pos h]
  rfl

/-- Witness for C6 at 10 bars and an empty row. -/
theorem C6_witness :
    make_trading_decision 10 [] =
      Except.ok { action := "hold", stop_loss := 0, take_profit := 0,
                  confidence := 0, reasoning := "Insufficient data" } :=
  C6_insufficient_bars 10 [] (by norm_num)

/-- Counterexample to C6 as stated: the reasoning text is capitalised
"Insufficient data", not "insufficient data". -/
theorem C6_counterexample :
    make_trading_decision 0 [] = Except.ok insufficient_data_decision ∧
      insufficient_data_decision.reasoning ≠ "insufficient data" := by decide

end MT5

namespace MT5

/-- C5 (amended): fixed priority chain: trend-following's decision (confidence
0.85) is returned whenever its conditions hold, even when mean-reversion's
hold simultaneously; each later strategy answers only when the earlier ones do
not fire; if none fires the result is hold, confidence 0.5, reasoning
"No clear signal". -/
theorem C5_priority_chain :
    (∀ r : Row, trend_buy r →
      decide_from_row r =
        { action := "buy", stop_loss := r.close - risk_multiplier * r.atr,
          take_profit := r.close + risk_multiplier * r.atr, confidence := 0.85,
          reasoning := "Strong bullish trend with EMA crossover & ADX > 25" }) ∧
    (∀ r : Row, ¬ trend_buy r → trend_sell r →
      decide_from_row r =
        { action := "sell", stop_loss := r.close + risk_multiplier * r.atr,
          take_profit := r.close - risk_multiplier * r.atr, confidence := 0.85,
          reasoning := "Strong bearish trend with EMA crossover & ADX > 25" }) ∧
    (∀ r : Row, (trend_buy r ∨ trend_sell r) → (mr_buy r ∨ mr_sell r) →
      (decide_from_row r).confidence = 0.85) ∧
    (∀ r : Row, ¬ trend_buy r → ¬ trend_sell r → mr_buy r →
      decide_from_row r =
        { action := "buy", stop_loss := r.close - risk_multiplier * r.atr,
          take_profit := r.close + risk_multiplier * r.atr, confidence := 0.75,
          reasoning := "Price at lower Bollinger Band & RSI < 30 (Oversold)" }) ∧
    (∀ r : Row, ¬ trend_buy r → ¬ trend_sell r → ¬ mr_buy r → mr_sell r →
      decide_from_row r =
        { action := "sell", stop_loss := r.close + risk_multiplier * r.atr,
          take_profit := r.close - risk_multiplier * r.atr, confidence := 0.75,
          reasoning := "Price at upper Bollinger Band & RSI > 70 (Overbought)" }) ∧
    (∀ r : Row, ¬ trend_buy r → ¬ trend_sell r → ¬ mr_buy r → ¬ mr_sell r →
      ¬ breakout_guard r →
      decide_from_row r =
        { action := "hold", stop_loss := 0, take_profit := 0,
          confidence := 0.5, reasoning := "No clear signal" }) := by
  refine ⟨decide_of_trend_buy, decide_of_trend_sell, ?_, decide_of_mr_buy,
    decide_of_mr_sell, decide_of_no_fire⟩
  intro r ht _hm
  rcases ht with hb | hs
  · rw [decide_of_trend_buy r hb]
  · by_cases hb2 : trend_buy r
    · rw [decide_of_trend_buy r hb2]
    · rw [decide_of_trend_sell r hb2 hs]

/-- Witness for C5: a snapshot where trend-following buy and mean-reversion
sell both fire; the trend decision (confidence 0.85) wins. -/
theorem C5_witness :
    (decide_from_row ⟨2, 1, 80, 1, 30, 1.5, 0.5, 2⟩).confidence = 0.85 :=
  C5_priority_chain.2.2.1 ⟨2, 1, 80, 1, 30, 1.5, 0.5, 2⟩
    (Or.inl (by norm_num [trend_buy])) (Or.inr (by norm_num [mr_sell]))

/-- Counterexample to C5 as stated: the no-signal reasoning text is
"No clear signal", not "no clear signal". -/
theorem C5_counterexample :
    decide_from_row ⟨2, 3, 40, 1, 10, 10, 0, 5⟩ = no_signal_decision ∧
      no_signal_decision.action = "hold" ∧
      no_signal_decision.confidence = 0.5 ∧
      no_signal_decision.reasoning ≠ "no clear signal" := by
  refine ⟨decide_of_no_fire _ (by norm_num [trend_buy]) (by norm_num [trend_sell])
    (by norm_num [mr_buy]) (by norm_num [mr_sell]) (by norm_num [breakout_guard]),
    rfl, rfl, by decide⟩

/-- C7: the breakout branch compares the scalar last-row ATR against 1.5 times
itself, so it can never fire on a snapshot with nonnegative ATR; a snapshot
engineered to satisfy the spec's breakout description (current ATR far above
its rolling average) falls through to the no-signal hold. -/
theorem C7_breakout_never_fires :
    (∀ r : Row, 0 ≤ r.atr →
      (decide_from_row r).reasoning ≠ "High ATR breakout detected") ∧
    decide_from_row ⟨1, 1, 60, 0.003, 10, 1.1, 0.9, 1⟩ =
      { action := "hold", stop_loss := 0, take_profit := 0,
        confidence := 0.5, reasoning := "No clear signal" } := by
  constructor
  · intro r h hc
    have hb := breakout_guard_false h
    unfold decide_from_row at hc
    split_ifs at hc with h1 h2 h3 h4 h5 h6
    · simp at hc
    · simp at hc
    · simp at hc
    · simp at hc
    · exact hb h5
    · exact hb h5
    · simp at hc
  · exact decide_of_no_fire _ (by norm_num [trend_buy]) (by norm_num [trend_sell])
      (by norm_num [mr_buy]) (by norm_num [mr_sell]) (by norm_num [breakout_guard])

/-- Witness for C7 at the engineered breakout snapshot. -/
theorem C7_witness :
    (decide_from_row ⟨1, 1, 60, 0.003, 10, 1.1, 0.9, 1⟩).reasoning ≠
      "High ATR breakout detected" :=
  C7_breakout_never_fires.1 ⟨1, 1, 60, 0.003, 10, 1.1, 0.9, 1⟩ (by norm_num)

/-- C9: every directional decision of the rule path (on a snapshot with
nonnegative ATR) places its levels at price ∓ 1.5·ATR according to direction,
and the spec's worked example evaluates to buy with stop_loss 1.1032,
take_profit 1.1068, confidence 0.85. -/
theorem C9_sizing_rule :
    (∀ r : Row, 0 ≤ r.atr →
      ((decide_from_row r).action = "buy" →
        (decide_from_row r).stop_loss = r.close - risk_multiplier * r.atr ∧
          (decide_from_row r).take_profit = r.close + risk_multiplier * r.atr) ∧
      ((decide_from_row r).action = "sell" →
        (decide_from_row r).stop_loss = r.close + risk_multiplier * r.atr ∧
          (decide_from_row r).take_profit = r.close - risk_multiplier * r.atr)) ∧
    make_trading_decision 100 example_snapshot =
      Except.ok { action := "buy", stop_loss := 1.1032, take_profit := 1.1068,
                  confidence := 0.85,
                  reasoning := "Strong bullish trend with EMA crossover & ADX > 25" } := by
  constructor
  · intro r h
    unfold decide_from_row
    split_ifs with h1 h2 h3 h4 h5 h6
    · exact ⟨fun _ => ⟨rfl, rfl⟩, fun hs => by simp at hs⟩
    · exact ⟨fun hb => by simp at hb, fun _ => ⟨rfl, rfl⟩⟩
    · exact ⟨fun _ => ⟨rfl, rfl⟩, fun hs => by simp at hs⟩
    · exact ⟨fun hb => by simp at hb, fun _ => ⟨rfl, rfl⟩⟩
    · exact absurd h5 (breakout_guard_false h)
    · exact absurd h5 (breakout_guard_false h)
    · exact ⟨fun hb => by simp at hb, fun hs => by simp at hs⟩
  · have hrow : read_last_row example_snapshot =
        Except.ok ⟨1.1050, 1.1020, 55, 0.0012, 30, 1.2, 1.0, 1.1050⟩ := rfl
    have hbuy := decide_of_trend_buy ⟨1.1050, 1.1020, 55, 0.0012, 30, 1.2, 1.0, 1.1050⟩
      (by norm_num [trend_buy])
    unfold make_trading_decision
    rw [if_neg (by norm_num), hrow]
    simp only [Except.map]
    rw [hbuy]
    simp only [Except.ok.injEq, TradeDecision.mk.injEq]
    norm_num [risk_multiplier]

/-- Witness for C9 at a trend-following buy snapshot with ATR 2. -/
theorem C9_witness :
    (decide_from_row ⟨3, 1, 60, 2, 30, 10, 0, 5⟩).stop_loss =
        5 - risk_multiplier * 2 ∧
      (decide_from_row ⟨3, 1, 60, 2, 30, 10, 0, 5⟩).take_profit =
        5 + risk_multiplier * 2 :=
  (C9_sizing_rule.1 ⟨3, 1, 60, 2, 30, 10, 0, 5⟩ (by norm_num)).1 (by decide)

/-- C10: a decision that comes out of the pydantic parse has one of the three
enumerated actions, so `_validate_decision` can never reach its
division-by-zero branch, and for a non-hold decision that passes the ordering
check the risk |price − stop_loss| is strictly positive. -/
theorem C10_ordering_guards_division (price : ℚ) (a : String) (sl tp conf : ℚ)
    (rsn : String) (d : TradeDecision)
    (hp : parse_trade_decision a sl tp conf rsn = Except.ok d) :
    validate_decision price d ≠
        Except.error "ZeroDivisionError: float division by zero" ∧
      (d.action ≠ "hold" → passes_ordering price d →
        0 < |price - d.stop_loss|) := by
  obtain ⟨hd, haset, hpos, hc0, hc1⟩ := parse_ok_fields hp
  have hact : d.action = "buy" ∨ d.action = "sell" ∨ d.action = "hold" := by
    rw [hd]; exact haset
  refine ⟨validate_ne_zerodiv hact, ?_⟩
  intro hne hord
  rcases hact with hb | hs | hh
  · exact abs_pos.mpr (ne_of_gt (sub_pos.mpr (hord.1 hb).1))
  · exact abs_pos.mpr (ne_of_lt (sub_neg.mpr (hord.2 hs).2))
  · exact absurd hh hne

/-- Witness for C10 at a parsed buy decision. -/
theorem C10_witness :
    validate_decision 1.1 c10_decision ≠
        Except.error "ZeroDivisionError: float division by zero" ∧
      (c10_decision.action ≠ "hold" → passes_ordering 1.1 c10_decision →
        0 < |1.1 - c10_decision.stop_loss|) :=
  C10_ordering_guards_division 1.1 "buy" 1 1.26 0.5 "r" c10_decision
    (by rw [parse_ok_of "r" (Or.inl rfl) (fun _ => by norm_num)
          (by norm_num) (by norm_num)]
        simp only [Except.ok.injEq, TradeDecision.mk.injEq, c10_decision]
        norm_num [pyRound, pyRoundInt])

end MT5

namespace MT5

/-- C8 (amended): for level inputs at the 5-decimal granularity the parser
rounds to, the combined validation (pydantic parse followed by
`_validate_decision`) accepts an externally produced decision iff the action
is enumerated, the confidence lies in [0, 1], and, for a non-hold action, the
levels are positive, correctly ordered for the direction, and reward/risk is
at least 1.5; a hold passes the level and risk/reward checks unconditionally;
every failed check raises, which triggers a retry. -/
theorem C8_validation_iff (price : ℚ) (a : String) (sl tp conf : ℚ)
    (rsn : String) (hsl : pyRound 5 sl = sl) (htp : pyRound 5 tp = tp) :
    (parse_and_validate price a sl tp conf rsn).isOk = true ↔
      ((a = "buy" ∨ a = "sell" ∨ a = "hold") ∧ (0 ≤ conf ∧ conf ≤ 1) ∧
        (a = "hold" ∨
          (0 < sl ∧ 0 < tp ∧
            (a = "buy" → sl < price ∧ price < tp) ∧
            (a = "sell" → tp < price ∧ price < sl) ∧
            minRR ≤ |tp - price| / |price - sl|))) := by
  constructor
  · intro h
    cases hp : parse_trade_decision a sl tp conf rsn with
    | error e =>
      unfold parse_and_validate at h
      rw [hp, ebind_error] at h
      simp [Except.isOk, Except.toBool] at h
    | ok d =>
      obtain ⟨hd, haset, hpos, hc0, hc1⟩ := parse_ok_fields hp
      unfold parse_and_validate at h
      rw [hp] at h
      simp only [ebind_ok] at h
      cases hv : validate_decision price d with
      | error e => rw [hv, ebind_error] at h; exact Bool.noConfusion h
      | ok u =>
        have hvok : (validate_decision price d).isOk = true := by rw [hv]; rfl
        have hdact : d.action = a := by rw [hd]
        have hdsl : d.stop_loss = sl := by rw [hd]; exact hsl
        have hdtp : d.take_profit = tp := by rw [hd]; exact htp
        refine ⟨haset, ⟨hc0, hc1⟩, ?_⟩
        rcases haset with hb | hs | hh
        · right
          obtain ⟨⟨ho1, ho2⟩, hrr⟩ := (validate_buy_iff (hdact.trans hb)).mp hvok
          rw [hdsl] at ho1
          rw [hdtp] at ho2
          rw [hdsl, hdtp] at hrr
          have hp2 := hpos (by rw [hb]; decide)
          exact ⟨hp2.1, hp2.2, fun _ => ⟨ho1, ho2⟩,
            fun hsell => absurd (hb.symm.trans hsell) (by decide), hrr⟩
        · right
          obtain ⟨⟨ho1, ho2⟩, hrr⟩ := (validate_sell_iff (hdact.trans hs)).mp hvok
          rw [hdtp] at ho1
          rw [hdsl] at ho2
          rw [hdsl, hdtp] at hrr
          have hp2 := hpos (by rw [hs]; decide)
          exact ⟨hp2.1, hp2.2, fun hbuy => absurd (hs.symm.trans hbuy) (by decide),
            fun _ => ⟨ho1, ho2⟩, hrr⟩
        · exact Or.inl hh
  · intro hrhs
    obtain ⟨haset, ⟨hc0, hc1⟩, hrest⟩ := hrhs
    have hpos : a ≠ "hold" → 0 < sl ∧ 0 < tp := by
      intro hne
      rcases hrest with hh | hr
      · exact absurd hh hne
      · exact ⟨hr.1, hr.2.1⟩
    have hp := parse_ok_of rsn haset hpos hc0 hc1
    unfold parse_and_validate
    rw [hp]
    simp only [ebind_ok]
    rw [hsl, htp]
    suffices hv :
        (validate_decision price ⟨a, sl, tp, pyRound 2 conf, rsn⟩).isOk = true by
      cases hvv : validate_decision price ⟨a, sl, tp, pyRound 2 conf, rsn⟩ with
      | error e => rw [hvv] at hv; exact Bool.noConfusion hv
      | ok u => rw [ebind_ok]; rfl
    rcases haset with hb | hs | hh
    · subst hb
      rcases hrest with hh | ⟨hsl0, htp0, hob, hos, hrr⟩
      · exact absurd hh (by decide)
      · rw [validate_buy_iff rfl]
        exact ⟨hob rfl, hrr⟩
    · subst hs
      rcases hrest with hh | ⟨hsl0, htp0, hob, hos, hrr⟩
      · exact absurd hh (by decide)
      · rw [validate_sell_iff rfl]
        exact ⟨hos rfl, hrr⟩
    · subst hh
      rw [validate_of_hold rfl]
      rfl

/-- Witness for C8 at an accepted buy decision with risk/reward 1.6. -/
theorem C8_witness :
    (parse_and_validate 1.1 "buy" 1 1.26 0.5 "w").isOk = true ↔
      ((("buy":String) = "buy" ∨ ("buy":String) = "sell" ∨
          ("buy":String) = "hold") ∧
        ((0:ℚ) ≤ 0.5 ∧ (0.5:ℚ) ≤ 1) ∧
        (("buy":String) = "hold" ∨
          ((0:ℚ) < 1 ∧ (0:ℚ) < 1.26 ∧
            (("buy":String) = "buy" → (1:ℚ) < 1.1 ∧ (1.1:ℚ) < 1.26) ∧
            (("buy":String) = "sell" → (1.26:ℚ) < 1.1 ∧ (1.1:ℚ) < 1) ∧
            minRR ≤ |(1.26:ℚ) - 1.1| / |(1.1:ℚ) - 1|))) :=
  C8_validation_iff 1.1 "buy" 1 1.26 0.5 "w"
    (by norm_num [pyRound, pyRoundInt]) (by norm_num [pyRound, pyRoundInt])

/-- Counterexample to C8 as stated: a buy decision with perfect levels and
risk/reward 1.6 but confidence 2 satisfies every condition in the claim, yet
validation rejects it (the confidence bound is checked too). -/
theorem C8_counterexample :
    (parse_and_validate 1.1 "buy" 1 1.26 2 "c").isOk = false ∧
      ((1:ℚ) < 1.1 ∧ (1.1:ℚ) < 1.26) ∧ (0:ℚ) < 1 ∧ (0:ℚ) < 1.26 ∧
      minRR ≤ |(1.26:ℚ) - 1.1| / |(1.1:ℚ) - 1| := by
  constructor
  · have hA : valid_action "buy" = Except.ok "buy" := rfl
    have hS : valid_prices "buy" (1:ℚ) = Except.ok (pyRound 5 1) := by
      unfold valid_prices
      rw [if_neg]
      rintro ⟨_, hle⟩
      norm_num at hle
    have hT : valid_prices "buy" (1.26:ℚ) = Except.ok (pyRound 5 1.26) := by
      unfold valid_prices
      rw [if_neg]
      rintro ⟨_, hle⟩
      norm_num at hle
    have hC : valid_confidence (2:ℚ) =
        Except.error "Confidence must be between 0 and 1" := by
      unfold valid_confidence
      rw [if_neg]
      rintro ⟨_, h2⟩
      norm_num at h2
    unfold parse_and_validate parse_trade_decision
    rw [hA]
    simp only [ebind_ok]
    rw [hS]
    simp only [ebind_ok]
    rw [hT]
    simp only [ebind_ok]
    rw [hC, ebind_error, ebind_error]
    rfl
  · have e1 : |(1.26:ℚ) - 1.1| = 1.26 - 1.1 := abs_of_pos (by norm_num)
    have e2 : |(1.1:ℚ) - 1| = 1.1 - 1 := abs_of_pos (by norm_num)
    refine ⟨⟨by norm_num, by norm_num⟩, by norm_num, by norm_num, ?_⟩
    rw [e1, e2]
    norm_num [minRR]

end MT5
